import Mathlib

/-!
Verification of an RTSP diagnostic client (Go, two source variants).

The program under study sequences four library calls (Connect, Describe,
Setup, Play) against an RTSP server, serializes the session description
and each received RTP packet to JSON, and then blocks forever.  All
protocol work lives in an external library; the program itself is a
linear orchestration of calls whose outcomes we model as an environment
record.  `run` is the shallow embedding of `src/main.go`; `run2` embeds
the truncated variant `src/unnamed/part_000`, which ends after printing
the session description.
-/

/-- An RTP packet header as exposed by the `pion/rtp` package: the fields
the program reads inside its `OnPacketRTPAny` callback. -/
structure RTPPacket where
  version : Nat
  sequenceNumber : Nat
  timestamp : Nat
  ext : Bool
  padding : Bool
  marker : Bool
  payloadType : Nat
  ssrc : Nat
  csrc : List Nat
  extensionHeaders : List (Nat × List Nat)
  extensionProfile : Nat
deriving DecidableEq

/-- JSON-able values appearing in the packet-info map built by the callback. -/
inductive JVal where
  | nat (n : Nat)
  | bool (b : Bool)
  | natList (l : List Nat)
  | extList (l : List (Nat × List Nat))
deriving DecidableEq

/-- The session description returned by DESCRIBE, as used by the program:
a base URL and an opaque ordered list of media descriptors (the program
passes both to `SetupAll` and serializes the whole value). -/
structure SessionDescription where
  baseURL : String
  medias : List String
deriving DecidableEq

/-- Scope of the packet callback registration: `allMedias` corresponds to
`OnPacketRTPAny` (every packet of every negotiated media stream), as
opposed to a per-stream registration. -/
inductive CallbackScope where
  | allMedias
  | singleMedia (m : String)
deriving DecidableEq

/-- Observable events of a program run: log lines, network calls and the
JSON blocks emitted to the log stream. -/
inductive Event where
  | logUsage
  | logParseError
  | logStarting
  | netConnect
  | logConnectError
  | netDescribe
  | logDescribeError
  | logDescMarshalError
  | descBlock (d : SessionDescription)
  | netSetup
  | logSetupError
  | registerCallback (scope : CallbackScope)
  | netPlay
  | logPlayError
  | logStreaming
  | logPktMarshalError
  | packetBlock (info : List (String × JVal))
deriving DecidableEq

/-- How the main routine ends: a fatal `log.Fatal*` exit, a normal return,
or parking forever in `select {}`. -/
inductive Outcome where
  | fatalExit
  | normalExit
  | blockedForever
deriving DecidableEq

/-- Environment of one run: the command line and the outcome the external
library and serializer produce for each call the program makes.  Each
delivered packet carries the outcome of marshaling it. -/
structure Env where
  args : List String
  parseOk : Bool
  connectOk : Bool
  describeOk : Bool
  desc : SessionDescription
  descMarshalOk : Bool
  setupOk : Bool
  playOk : Bool
  packets : List (RTPPacket × Bool)

/-- The `packetInfo` map built by the callback in `src/main.go` lines
91–103: eleven entries, each taken from the corresponding header field of
the packet. -/
def packetInfo (p : RTPPacket) : List (String × JVal) :=
  [("version", JVal.nat p.version),
   ("sequence_number", JVal.nat p.sequenceNumber),
   ("timestamp", JVal.nat p.timestamp),
   ("extension", JVal.bool p.ext),
   ("padding", JVal.bool p.padding),
   ("marker", JVal.bool p.marker),
   ("payload_type", JVal.nat p.payloadType),
   ("ssrc", JVal.nat p.ssrc),
   ("csrc", JVal.natList p.csrc),
   ("extensions", JVal.extList p.extensionHeaders),
   ("extension_profile", JVal.nat p.extensionProfile)]

/-- One invocation of the registered callback (`src/main.go` lines
90–112): marshal the packet-info map; on failure log and return, dropping
the packet; on success emit the packet JSON block. -/
def callbackRun (pr : RTPPacket × Bool) : List Event :=
  if pr.2 then [Event.packetBlock (packetInfo pr.1)]
  else [Event.logPktMarshalError]

/-- Events produced by the sequence of packets delivered to the callback,
in delivery order. -/
def packetsEvents : List (RTPPacket × Bool) → List Event
  | [] => []
  | pr :: rest => callbackRun pr ++ packetsEvents rest

/-- Client configuration built in `src/main.go` lines 42–46. -/
structure ClientConfig where
  readTimeoutSec : Nat
  writeTimeoutSec : Nat
  anyPortEnable : Bool
deriving DecidableEq

def mainClientConfig : ClientConfig :=
  { readTimeoutSec := 5, writeTimeoutSec := 5, anyPortEnable := true }

/-- Client configuration built in `src/unnamed/part_000` lines 39–43. -/
def variantClientConfig : ClientConfig :=
  { readTimeoutSec := 5, writeTimeoutSec := 5, anyPortEnable := true }

/-- Shallow embedding of `main` in `src/main.go`: the linear call
sequence with its exits.  `log.Fatalln`/`log.Fatalf` end the process
(`Outcome.fatalExit`); the final `select {}` never returns
(`Outcome.blockedForever`).  Packets are delivered to the callback only
after it is registered and Play has been issued. -/
def run (e : Env) : List Event × Outcome :=
  if e.args.length < 2 then ([Event.logUsage], Outcome.fatalExit)
  else if e.parseOk = false then ([Event.logParseError], Outcome.fatalExit)
  else if e.connectOk = false then
    ([Event.logStarting, Event.netConnect, Event.logConnectError], Outcome.fatalExit)
  else if e.describeOk = false then
    ([Event.logStarting, Event.netConnect, Event.netDescribe, Event.logDescribeError],
     Outcome.fatalExit)
  else
    ([Event.logStarting, Event.netConnect, Event.netDescribe] ++
     (if e.descMarshalOk then [Event.descBlock e.desc] else [Event.logDescMarshalError]) ++
     [Event.netSetup] ++ (if e.setupOk then [] else [Event.logSetupError]) ++
     [Event.registerCallback CallbackScope.allMedias] ++
     [Event.netPlay] ++ (if e.playOk then [] else [Event.logPlayError]) ++
     [Event.logStreaming] ++ packetsEvents e.packets,
     Outcome.blockedForever)

/-- Environment of the truncated variant: only the fields its code reads. -/
structure Env2 where
  args : List String
  parseOk : Bool
  connectOk : Bool
  describeOk : Bool
  desc : SessionDescription
  descMarshalOk : Bool

/-- Shallow embedding of `main` in `src/unnamed/part_000`: identical to
`run` through the session-description JSON step, then the function
returns normally. -/
def run2 (e : Env2) : List Event × Outcome :=
  if e.args.length < 2 then ([Event.logUsage], Outcome.fatalExit)
  else if e.parseOk = false then ([Event.logParseError], Outcome.fatalExit)
  else if e.connectOk = false then
    ([Event.logStarting, Event.netConnect, Event.logConnectError], Outcome.fatalExit)
  else if e.describeOk = false then
    ([Event.logStarting, Event.netConnect, Event.netDescribe, Event.logDescribeError],
     Outcome.fatalExit)
  else
    ([Event.logStarting, Event.netConnect, Event.netDescribe] ++
     (if e.descMarshalOk then [Event.descBlock e.desc] else [Event.logDescMarshalError]),
     Outcome.normalExit)

/-- Projection of a full environment onto the fields the variant reads. -/
def restrictEnv (e : Env) : Env2 :=
  { args := e.args, parseOk := e.parseOk, connectOk := e.connectOk,
    describeOk := e.describeOk, desc := e.desc, descMarshalOk := e.descMarshalOk }

/-- Event classifiers used by the claims. -/
def isDescBlock : Event → Bool
  | Event.descBlock _ => true
  | _ => false

def isPacketBlock : Event → Bool
  | Event.packetBlock _ => true
  | _ => false

def isRegister : Event → Bool
  | Event.registerCallback _ => true
  | _ => false

def isNetworkEvent : Event → Bool
  | Event.netConnect => true
  | Event.netDescribe => true
  | Event.netSetup => true
  | Event.netPlay => true
  | _ => false

/-! ## Helper lemmas -/

theorem packetsEvents_append (xs ys : List (RTPPacket × Bool)) :
    packetsEvents (xs ++ ys) = packetsEvents xs ++ packetsEvents ys := by
  induction xs with
  | nil => rfl
  | cons pr rest ih => simp [packetsEvents, ih]

theorem packetsEvents_countP_zero (q : Event → Bool)
    (hq1 : q Event.logPktMarshalError = false)
    (hq2 : ∀ info, q (Event.packetBlock info) = false)
    (l : List (RTPPacket × Bool)) :
    (packetsEvents l).countP q = 0 := by
  induction l with
  | nil => rfl
  | cons pr rest ih =>
      cases hm : pr.2 <;>
        simp [packetsEvents, callbackRun, hm, hq1, hq2, ih]

theorem packetBlock_mem_packetsEvents (l : List (RTPPacket × Bool)) (p : RTPPacket)
    (h : (p, true) ∈ l) :
    Event.packetBlock (packetInfo p) ∈ packetsEvents l := by
  induction l with
  | nil => cases h
  | cons pr rest ih =>
      rcases List.mem_cons.mp h with h | h
      · simp [packetsEvents, callbackRun, ← h]
      · simp [packetsEvents, List.mem_append, ih h]

/-! ## Claim theorems -/

/-- C2: for every RTP packet delivered to the registered callback, the
emitted packet JSON block contains exactly the eleven fields `version`,
`sequence_number`, `timestamp`, `extension`, `padding`, `marker`,
`payload_type`, `ssrc`, `csrc`, `extensions`, `extension_profile` — no
more, no fewer — each taken from the corresponding header field of that
packet; and the block emitted by the callback for a successfully
marshaled packet is exactly this map. -/
theorem packet_block_exact_fields (p : RTPPacket) :
    (packetInfo p).map Prod.fst =
      ["version", "sequence_number", "timestamp", "extension", "padding",
       "marker", "payload_type", "ssrc", "csrc", "extensions",
       "extension_profile"] ∧
    (packetInfo p).length = 11 ∧
    (packetInfo p).lookup "version" = some (JVal.nat p.version) ∧
    (packetInfo p).lookup "sequence_number" = some (JVal.nat p.sequenceNumber) ∧
    (packetInfo p).lookup "timestamp" = some (JVal.nat p.timestamp) ∧
    (packetInfo p).lookup "extension" = some (JVal.bool p.ext) ∧
    (packetInfo p).lookup "padding" = some (JVal.bool p.padding) ∧
    (packetInfo p).lookup "marker" = some (JVal.bool p.marker) ∧
    (packetInfo p).lookup "payload_type" = some (JVal.nat p.payloadType) ∧
    (packetInfo p).lookup "ssrc" = some (JVal.nat p.ssrc) ∧
    (packetInfo p).lookup "csrc" = some (JVal.natList p.csrc) ∧
    (packetInfo p).lookup "extensions" = some (JVal.extList p.extensionHeaders) ∧
    (packetInfo p).lookup "extension_profile" = some (JVal.nat p.extensionProfile) ∧
    callbackRun (p, true) = [Event.packetBlock (packetInfo p)] := by
  refine ⟨rfl, rfl, ?_, ?_, ?_, ?_, ?_, ?_, ?_, ?_, ?_, ?_, ?_, rfl⟩ <;> rfl

/-- C4: with zero command-line arguments (`os.Args` shorter than 2) or a
malformed URL, the program exits fatally with a usage or parse diagnostic
and performs no network activity: no Connect, Describe, Setup or Play
event and no description or packet output occurs. -/
theorem no_args_or_bad_url_no_network (e : Env)
    (h : e.args.length < 2 ∨ e.parseOk = false) :
    (run e).2 = Outcome.fatalExit ∧
    (run e).1.countP isNetworkEvent = 0 ∧
    (run e).1.countP isDescBlock = 0 ∧
    (run e).1.countP isPacketBlock = 0 ∧
    (e.args.length < 2 → (run e).1 = [Event.logUsage]) ∧
    (¬ e.args.length < 2 → (run e).1 = [Event.logParseError]) := by
  by_cases h1 : e.args.length < 2
  · simp [run, h1, isNetworkEvent, isDescBlock, isPacketBlock]
  · have h2 : e.parseOk = false := h.resolve_left h1
    simp [run, h1, h2, isNetworkEvent, isDescBlock, isPacketBlock]

def envNoArgs : Env :=
  { args := ["prog"], parseOk := false, connectOk := false,
    describeOk := false, desc := ⟨"", []⟩, descMarshalOk := false,
    setupOk := false, playOk := false, packets := [] }

/-- Witness for C4 at a concrete one-element argument vector. -/
theorem no_args_or_bad_url_no_network_witness :
    (envNoArgs.args.length < 2 ∨ envNoArgs.parseOk = false) ∧
    ((run envNoArgs).2 = Outcome.fatalExit ∧
     (run envNoArgs).1.countP isNetworkEvent = 0 ∧
     (run envNoArgs).1.countP isDescBlock = 0 ∧
     (run envNoArgs).1.countP isPacketBlock = 0 ∧
     (envNoArgs.args.length < 2 → (run envNoArgs).1 = [Event.logUsage]) ∧
     (¬ envNoArgs.args.length < 2 → (run envNoArgs).1 = [Event.logParseError])) :=
  ⟨by decide, no_args_or_bad_url_no_network envNoArgs (by decide)⟩

/-- C5: if Connect fails, the process exits fatally having logged the
connection error, and never issues Describe, Setup or Play and never
emits a description or packet block. -/
theorem connect_failure_fatal_no_session (e : Env)
    (h1 : 2 ≤ e.args.length) (h2 : e.parseOk = true) (h3 : e.connectOk = false) :
    (run e).1 = [Event.logStarting, Event.netConnect, Event.logConnectError] ∧
    (run e).2 = Outcome.fatalExit ∧
    Event.netDescribe ∉ (run e).1 ∧
    Event.netSetup ∉ (run e).1 ∧
    Event.netPlay ∉ (run e).1 ∧
    (run e).1.countP isDescBlock = 0 ∧
    (run e).1.countP isPacketBlock = 0 := by
  have h1' : ¬ e.args.length < 2 := Nat.not_lt.mpr h1
  have ht : run e = ([Event.logStarting, Event.netConnect, Event.logConnectError],
      Outcome.fatalExit) := by
    simp [run, h1', h2, h3]
  rw [ht]
  decide

def envConnectFail : Env :=
  { args := ["prog", "rtsp://unreachable:8554/s"], parseOk := true, connectOk := false,
    describeOk := false, desc := ⟨"", []⟩, descMarshalOk := false,
    setupOk := false, playOk := false, packets := [] }

/-- Witness for C5 at a concrete environment whose Connect step fails. -/
theorem connect_failure_fatal_no_session_witness :
    (2 ≤ envConnectFail.args.length ∧ envConnectFail.parseOk = true ∧
     envConnectFail.connectOk = false) ∧
    ((run envConnectFail).1 =
       [Event.logStarting, Event.netConnect, Event.logConnectError] ∧
     (run envConnectFail).2 = Outcome.fatalExit ∧
     Event.netDescribe ∉ (run envConnectFail).1 ∧
     Event.netSetup ∉ (run envConnectFail).1 ∧
     Event.netPlay ∉ (run envConnectFail).1 ∧
     (run envConnectFail).1.countP isDescBlock = 0 ∧
     (run envConnectFail).1.countP isPacketBlock = 0) :=
  ⟨by decide,
   connect_failure_fatal_no_session envConnectFail (by decide) (by decide) (by decide)⟩

def envDescribeFail : Env :=
  { args := ["prog", "rtsp://host:8554/s"], parseOk := true, connectOk := true,
    describeOk := false, desc := ⟨"", []⟩, descMarshalOk := true,
    setupOk := true, playOk := true, packets := [] }

/-- C1 (counterexample): at a concrete environment where the transport
connection succeeded but Describe failed, the program terminates fatally
and never attempts Setup or Play — refuting the claim that a Describe
failure is logged and non-fatal.  The code at `src/main.go` line 65 is
`log.Fatalf`, not `log.Printf`. -/
theorem describe_failure_nonfatal_refuted :
    envDescribeFail.connectOk = true ∧ envDescribeFail.describeOk = false ∧
    (run envDescribeFail).2 = Outcome.fatalExit ∧
    Event.netSetup ∉ (run envDescribeFail).1 ∧
    Event.netPlay ∉ (run envDescribeFail).1 ∧
    Event.logDescribeError ∈ (run envDescribeFail).1 := by
  decide

/-- C1 (amended): if the transport connection succeeded but Describe
fails, the program logs the Describe error and terminates fatally, like a
Connect failure; it does not register the callback and does not attempt
Setup or Play, and emits no description or packet block. -/
theorem describe_failure_fatal (e : Env)
    (h1 : 2 ≤ e.args.length) (h2 : e.parseOk = true) (h3 : e.connectOk = true)
    (h4 : e.describeOk = false) :
    (run e).1 = [Event.logStarting, Event.netConnect, Event.netDescribe,
      Event.logDescribeError] ∧
    (run e).2 = Outcome.fatalExit ∧
    Event.netSetup ∉ (run e).1 ∧
    Event.netPlay ∉ (run e).1 ∧
    (run e).1.countP isRegister = 0 ∧
    (run e).1.countP isDescBlock = 0 ∧
    (run e).1.countP isPacketBlock = 0 := by
  have h1' : ¬ e.args.length < 2 := Nat.not_lt.mpr h1
  have ht : run e = ([Event.logStarting, Event.netConnect, Event.netDescribe,
      Event.logDescribeError], Outcome.fatalExit) := by
    simp [run, h1', h2, h3, h4]
  rw [ht]
  decide

def envDescribeFail2 : Env :=
  { args := ["prog", "rtsp://host:8554/other"], parseOk := true, connectOk := true,
    describeOk := false, desc := ⟨"", []⟩, descMarshalOk := true,
    setupOk := true, playOk := true, packets := [] }

/-- Witness for the amended C1 at a concrete environment. -/
theorem describe_failure_fatal_witness :
    (2 ≤ envDescribeFail2.args.length ∧ envDescribeFail2.parseOk = true ∧
     envDescribeFail2.connectOk = true ∧ envDescribeFail2.describeOk = false) ∧
    ((run envDescribeFail2).1 = [Event.logStarting, Event.netConnect,
       Event.netDescribe, Event.logDescribeError] ∧
     (run envDescribeFail2).2 = Outcome.fatalExit ∧
     Event.netSetup ∉ (run envDescribeFail2).1 ∧
     Event.netPlay ∉ (run envDescribeFail2).1 ∧
     (run envDescribeFail2).1.countP isRegister = 0 ∧
     (run envDescribeFail2).1.countP isDescBlock = 0 ∧
     (run envDescribeFail2).1.countP isPacketBlock = 0) :=
  ⟨by decide,
   describe_failure_fatal envDescribeFail2 (by decide) (by decide) (by decide) (by decide)⟩

/-- C9: once the program has survived Describe, it always reaches Play
and then parks forever in `select {}`: whatever the Setup, Play,
serialization and packet outcomes, the main routine never returns. -/
theorem post_play_blocks_forever (e : Env)
    (h1 : 2 ≤ e.args.length) (h2 : e.parseOk = true) (h3 : e.connectOk = true)
    (h4 : e.describeOk = true) :
    (run e).2 = Outcome.blockedForever ∧
    Event.netPlay ∈ (run e).1 ∧
    Event.logStreaming ∈ (run e).1 := by
  have h1' : ¬ e.args.length < 2 := Nat.not_lt.mpr h1
  cases hd : e.descMarshalOk <;> cases hs : e.setupOk <;> cases hp : e.playOk <;>
    simp [run, h1', h2, h3, h4, hd, hs, hp]

def envPostPlay : Env :=
  { args := ["prog", "rtsp://host:8554/p9"], parseOk := true, connectOk := true,
    describeOk := true, desc := ⟨"rtsp://host:8554/p9", ["video"]⟩,
    descMarshalOk := true, setupOk := false, playOk := false, packets := [] }

/-- Witness for C9 at a concrete environment where both Setup and Play fail. -/
theorem post_play_blocks_forever_witness :
    (2 ≤ envPostPlay.args.length ∧ envPostPlay.parseOk = true ∧
     envPostPlay.connectOk = true ∧ envPostPlay.describeOk = true) ∧
    ((run envPostPlay).2 = Outcome.blockedForever ∧
     Event.netPlay ∈ (run envPostPlay).1 ∧
     Event.logStreaming ∈ (run envPostPlay).1) :=
  ⟨by decide,
   post_play_blocks_forever envPostPlay (by decide) (by decide) (by decide) (by decide)⟩

/-- C6: Setup failure and Play failure are each logged and non-fatal:
after a failed Setup the program still registers the packet callback and
issues Play, and after a failed Play it still enters the indefinite
waiting state instead of terminating. -/
theorem setup_play_failures_nonfatal (e : Env)
    (h1 : 2 ≤ e.args.length) (h2 : e.parseOk = true) (h3 : e.connectOk = true)
    (h4 : e.describeOk = true) :
    (run e).2 = Outcome.blockedForever ∧
    (e.setupOk = false →
      Event.logSetupError ∈ (run e).1 ∧
      Event.registerCallback CallbackScope.allMedias ∈ (run e).1 ∧
      Event.netPlay ∈ (run e).1) ∧
    (e.playOk = false →
      Event.logPlayError ∈ (run e).1 ∧ Event.logStreaming ∈ (run e).1) := by
  have h1' : ¬ e.args.length < 2 := Nat.not_lt.mpr h1
  cases hd : e.descMarshalOk <;> cases hs : e.setupOk <;> cases hp : e.playOk <;>
    simp [run, h1', h2, h3, h4, hd, hs, hp]

def envSetupPlayFail : Env :=
  { args := ["prog", "rtsp://host:8554/p6"], parseOk := true, connectOk := true,
    describeOk := true, desc := ⟨"rtsp://host:8554/p6", ["audio"]⟩,
    descMarshalOk := true, setupOk := false, playOk := false, packets := [] }

/-- Witness for C6 at a concrete environment where both Setup and Play fail. -/
theorem setup_play_failures_nonfatal_witness :
    (2 ≤ envSetupPlayFail.args.length ∧ envSetupPlayFail.parseOk = true ∧
     envSetupPlayFail.connectOk = true ∧ envSetupPlayFail.describeOk = true) ∧
    ((run envSetupPlayFail).2 = Outcome.blockedForever ∧
     (envSetupPlayFail.setupOk = false →
       Event.logSetupError ∈ (run envSetupPlayFail).1 ∧
       Event.registerCallback CallbackScope.allMedias ∈ (run envSetupPlayFail).1 ∧
       Event.netPlay ∈ (run envSetupPlayFail).1) ∧
     (envSetupPlayFail.playOk = false →
       Event.logPlayError ∈ (run envSetupPlayFail).1 ∧
       Event.logStreaming ∈ (run envSetupPlayFail).1)) :=
  ⟨by decide,
   setup_play_failures_nonfatal envSetupPlayFail (by decide) (by decide) (by decide)
     (by decide)⟩

/-- Trace normal form of `run` once Describe has succeeded and the
description marshaled. -/
def happyTrace (e : Env) : List Event :=
  [Event.logStarting, Event.netConnect, Event.netDescribe, Event.descBlock e.desc,
   Event.netSetup] ++
  (if e.setupOk then [] else [Event.logSetupError]) ++
  [Event.registerCallback CallbackScope.allMedias, Event.netPlay] ++
  (if e.playOk then [] else [Event.logPlayError]) ++
  [Event.logStreaming] ++ packetsEvents e.packets

theorem run_trace_happy (e : Env)
    (h1 : 2 ≤ e.args.length) (h2 : e.parseOk = true) (h3 : e.connectOk = true)
    (h4 : e.describeOk = true) (h5 : e.descMarshalOk = true) :
    (run e).1 = happyTrace e := by
  have h1' : ¬ e.args.length < 2 := Nat.not_lt.mpr h1
  simp [run, happyTrace, h1', h2, h3, h4, h5]

/-- C3: on a run whose Describe succeeded and whose description
marshaled, exactly one session-description JSON block is emitted, and it
precedes every packet JSON block; the packet callback is registered
exactly once, after Setup and before Play, with the all-media scope
(`OnPacketRTPAny`), and every delivered packet that marshals produces its
packet block in the trace. -/
theorem single_desc_block_before_packets (e : Env)
    (h1 : 2 ≤ e.args.length) (h2 : e.parseOk = true) (h3 : e.connectOk = true)
    (h4 : e.describeOk = true) (h5 : e.descMarshalOk = true) :
    (run e).1.countP isDescBlock = 1 ∧
    (∃ t1 t2, (run e).1 = t1 ++ Event.descBlock e.desc :: t2 ∧
      t1.countP isDescBlock = 0 ∧ t1.countP isPacketBlock = 0 ∧
      t2.countP isDescBlock = 0) ∧
    (run e).1.countP isRegister = 1 ∧
    (∃ u1 u2, (run e).1 = u1 ++ Event.registerCallback CallbackScope.allMedias :: u2 ∧
      u1.countP isRegister = 0 ∧ u2.countP isRegister = 0 ∧
      Event.netSetup ∈ u1 ∧ Event.netPlay ∈ u2 ∧
      u1.countP isPacketBlock = 0) ∧
    (∀ p : RTPPacket, (p, true) ∈ e.packets →
      Event.packetBlock (packetInfo p) ∈ (run e).1) := by
  have ht := run_trace_happy e h1 h2 h3 h4 h5
  have hz1 : (packetsEvents e.packets).countP isDescBlock = 0 :=
    packetsEvents_countP_zero isDescBlock rfl (fun _ => rfl) e.packets
  have hz2 : (packetsEvents e.packets).countP isRegister = 0 :=
    packetsEvents_countP_zero isRegister rfl (fun _ => rfl) e.packets
  rw [ht]
  refine ⟨?_,
    ⟨[Event.logStarting, Event.netConnect, Event.netDescribe],
     Event.netSetup :: ((if e.setupOk then [] else [Event.logSetupError]) ++
       ([Event.registerCallback CallbackScope.allMedias, Event.netPlay] ++
        ((if e.playOk then [] else [Event.logPlayError]) ++
         (Event.logStreaming :: packetsEvents e.packets)))), ?_, ?_, ?_, ?_⟩,
    ?_,
    ⟨[Event.logStarting, Event.netConnect, Event.netDescribe,
      Event.descBlock e.desc, Event.netSetup] ++
       (if e.setupOk then [] else [Event.logSetupError]),
     Event.netPlay :: ((if e.playOk then [] else [Event.logPlayError]) ++
       (Event.logStreaming :: packetsEvents e.packets)), ?_, ?_, ?_, ?_, ?_, ?_⟩,
    ?_⟩
  · cases hs : e.setupOk <;> cases hp : e.playOk <;>
      simp [happyTrace, List.countP_append, List.countP_cons, hz1, hs, hp,
        isDescBlock]
  · cases hs : e.setupOk <;> cases hp : e.playOk <;>
      simp [happyTrace, hs, hp]
  · simp [isDescBlock]
  · simp [isPacketBlock]
  · cases hs : e.setupOk <;> cases hp : e.playOk <;>
      simp [List.countP_append, List.countP_cons, hz1, hs, hp, isDescBlock]
  · cases hs : e.setupOk <;> cases hp : e.playOk <;>
      simp [happyTrace, List.countP_append, List.countP_cons, hz2, hs, hp,
        isRegister]
  · cases hs : e.setupOk <;> cases hp : e.playOk <;>
      simp [happyTrace, hs, hp]
  · cases hs : e.setupOk <;>
      simp [List.countP_append, List.countP_cons, hs, isRegister]
  · cases hp : e.playOk <;>
      simp [List.countP_append, List.countP_cons, hz2, hp, isRegister]
  · cases hs : e.setupOk <;> simp [hs]
  · cases hp : e.playOk <;> simp [hp]
  · cases hs : e.setupOk <;>
      simp [List.countP_append, List.countP_cons, hs, isPacketBlock]
  · intro p hp
    have hm := packetBlock_mem_packetsEvents e.packets p hp
    simp [happyTrace, List.mem_append]
    tauto

def envHappy : Env :=
  { args := ["prog", "rtsp://host:8554/p3"], parseOk := true, connectOk := true,
    describeOk := true, desc := ⟨"rtsp://host:8554/p3", ["video", "audio"]⟩,
    descMarshalOk := true, setupOk := true, playOk := true,
    packets := [(⟨2, 100, 1000, false, false, true, 96, 555, [], [], 0⟩, true)] }

/-- Witness for C3 at a concrete happy-path environment delivering one packet. -/
theorem single_desc_block_before_packets_witness :
    (2 ≤ envHappy.args.length ∧ envHappy.parseOk = true ∧
     envHappy.connectOk = true ∧ envHappy.describeOk = true ∧
     envHappy.descMarshalOk = true) ∧
    ((run envHappy).1.countP isDescBlock = 1 ∧
     (∃ t1 t2, (run envHappy).1 = t1 ++ Event.descBlock envHappy.desc :: t2 ∧
       t1.countP isDescBlock = 0 ∧ t1.countP isPacketBlock = 0 ∧
       t2.countP isDescBlock = 0) ∧
     (run envHappy).1.countP isRegister = 1 ∧
     (∃ u1 u2, (run envHappy).1 =
         u1 ++ Event.registerCallback CallbackScope.allMedias :: u2 ∧
       u1.countP isRegister = 0 ∧ u2.countP isRegister = 0 ∧
       Event.netSetup ∈ u1 ∧ Event.netPlay ∈ u2 ∧
       u1.countP isPacketBlock = 0) ∧
     (∀ p : RTPPacket, (p, true) ∈ envHappy.packets →
       Event.packetBlock (packetInfo p) ∈ (run envHappy).1)) :=
  ⟨⟨by decide, by decide, by decide, by decide, by decide⟩,
   single_desc_block_before_packets envHappy (by decide) (by decide) (by decide)
     (by decide) (by decide)⟩

/-- C7: a serialization failure is logged, non-fatal and scoped to the
single value being serialized: if the description fails to marshal the
program still proceeds to Setup and Play, and a packet that fails to
marshal contributes only its error line — it alone is dropped, the run
continues (still blocked forever, never terminated) and every later
packet that marshals still produces its block. -/
theorem serialization_failure_scoped (e : Env)
    (h1 : 2 ≤ e.args.length) (h2 : e.parseOk = true) (h3 : e.connectOk = true)
    (h4 : e.describeOk = true)
    (p : RTPPacket) (xs ys : List (RTPPacket × Bool))
    (hpk : e.packets = xs ++ (p, false) :: ys) :
    (run e).2 = Outcome.blockedForever ∧
    (e.descMarshalOk = false →
      Event.logDescMarshalError ∈ (run e).1 ∧ Event.netSetup ∈ (run e).1 ∧
      Event.netPlay ∈ (run e).1) ∧
    packetsEvents e.packets =
      packetsEvents xs ++ Event.logPktMarshalError :: packetsEvents ys ∧
    (run e).1.countP isPacketBlock =
      (packetsEvents xs).countP isPacketBlock +
      (packetsEvents ys).countP isPacketBlock ∧
    (∀ q : RTPPacket, (q, true) ∈ ys →
      Event.packetBlock (packetInfo q) ∈ (run e).1) := by
  have h1' : ¬ e.args.length < 2 := Nat.not_lt.mpr h1
  refine ⟨?_, ?_, ?_, ?_, ?_⟩
  · cases hd : e.descMarshalOk <;> cases hs : e.setupOk <;> cases hp : e.playOk <;>
      simp [run, h1', h2, h3, h4, hd, hs, hp]
  · intro h5
    cases hs : e.setupOk <;> cases hp : e.playOk <;>
      simp [run, h1', h2, h3, h4, h5, hs, hp]
  · rw [hpk, packetsEvents_append]
    simp [packetsEvents, callbackRun]
  · cases hd : e.descMarshalOk <;> cases hs : e.setupOk <;> cases hp : e.playOk <;>
      simp [run, h1', h2, h3, h4, hd, hs, hp, hpk, packetsEvents_append,
        packetsEvents, callbackRun, List.countP_append, List.countP_cons,
        isPacketBlock]
  · intro q hq
    have hm : Event.packetBlock (packetInfo q) ∈ packetsEvents e.packets := by
      rw [hpk, packetsEvents_append]
      refine List.mem_append_right _ ?_
      simp only [packetsEvents, List.mem_append]
      exact Or.inr (packetBlock_mem_packetsEvents ys q hq)
    cases hd : e.descMarshalOk <;> cases hs : e.setupOk <;> cases hp : e.playOk <;>
      simp [run, h1', h2, h3, h4, hd, hs, hp, List.mem_append] <;> tauto

def envMarshalFail : Env :=
  { args := ["prog", "rtsp://host:8554/p7"], parseOk := true, connectOk := true,
    describeOk := true, desc := ⟨"rtsp://host:8554/p7", ["video"]⟩,
    descMarshalOk := false, setupOk := true, playOk := true,
    packets := [(⟨2, 7, 70, false, false, false, 96, 1, [], [], 0⟩, true),
                (⟨2, 8, 80, false, false, false, 96, 1, [], [], 0⟩, false),
                (⟨2, 9, 90, false, false, true, 96, 1, [], [], 0⟩, true)] }

/-- Witness for C7: description marshaling fails and the middle of three
delivered packets fails to marshal. -/
theorem serialization_failure_scoped_witness :
    (2 ≤ envMarshalFail.args.length ∧ envMarshalFail.parseOk = true ∧
     envMarshalFail.connectOk = true ∧ envMarshalFail.describeOk = true ∧
     envMarshalFail.packets =
       [(⟨2, 7, 70, false, false, false, 96, 1, [], [], 0⟩, true)] ++
       (⟨2, 8, 80, false, false, false, 96, 1, [], [], 0⟩, false) ::
       [(⟨2, 9, 90, false, false, true, 96, 1, [], [], 0⟩, true)]) ∧
    ((run envMarshalFail).2 = Outcome.blockedForever ∧
     (envMarshalFail.descMarshalOk = false →
       Event.logDescMarshalError ∈ (run envMarshalFail).1 ∧
       Event.netSetup ∈ (run envMarshalFail).1 ∧
       Event.netPlay ∈ (run envMarshalFail).1) ∧
     packetsEvents envMarshalFail.packets =
       packetsEvents [(⟨2, 7, 70, false, false, false, 96, 1, [], [], 0⟩, true)] ++
       Event.logPktMarshalError ::
         packetsEvents [(⟨2, 9, 90, false, false, true, 96, 1, [], [], 0⟩, true)] ∧
     (run envMarshalFail).1.countP isPacketBlock =
       (packetsEvents
         [(⟨2, 7, 70, false, false, false, 96, 1, [], [], 0⟩, true)]).countP
           isPacketBlock +
       (packetsEvents
         [(⟨2, 9, 90, false, false, true, 96, 1, [], [], 0⟩, true)]).countP
           isPacketBlock ∧
     (∀ q : RTPPacket,
       (q, true) ∈ [(⟨2, 9, 90, false, false, true, 96, 1, [], [], 0⟩, true)] →
       Event.packetBlock (packetInfo q) ∈ (run envMarshalFail).1)) :=
  ⟨⟨by decide, by decide, by decide, by decide, by decide⟩,
   serialization_failure_scoped envMarshalFail (by decide) (by decide) (by decide)
     (by decide) ⟨2, 8, 80, false, false, false, 96, 1, [], [], 0⟩
     [(⟨2, 7, 70, false, false, false, 96, 1, [], [], 0⟩, true)]
     [(⟨2, 9, 90, false, false, true, 96, 1, [], [], 0⟩, true)] (by decide)⟩

/-- C8: the packet callback keeps no state across invocations: whatever
the history of previously delivered packets, delivering one more packet
appends exactly `callbackRun pr` to the trace — a function of that packet
alone — and any packet block it emits is exactly the field map of that
packet, so serializing the same packet always yields the same block and
no field value of an earlier packet can be reused. -/
theorem packet_callback_stateless (e : Env)
    (h1 : 2 ≤ e.args.length) (h2 : e.parseOk = true) (h3 : e.connectOk = true)
    (h4 : e.describeOk = true) (pr : RTPPacket × Bool) :
    (run { e with packets := e.packets ++ [pr] }).1 = (run e).1 ++ callbackRun pr ∧
    (∀ info, Event.packetBlock info ∈ callbackRun pr → info = packetInfo pr.1) ∧
    (∀ p : RTPPacket, callbackRun (p, true) = [Event.packetBlock (packetInfo p)]) := by
  have h1' : ¬ e.args.length < 2 := Nat.not_lt.mpr h1
  refine ⟨?_, ?_, fun p => rfl⟩
  · cases hd : e.descMarshalOk <;> cases hs : e.setupOk <;> cases hp : e.playOk <;>
      simp [run, h1', h2, h3, h4, hd, hs, hp, packetsEvents_append, packetsEvents]
  · rcases pr with ⟨p, b⟩
    intro info hinfo
    cases b <;> simp [callbackRun] at hinfo ⊢
    exact hinfo

def envStateless : Env :=
  { args := ["prog", "rtsp://host:8554/p8"], parseOk := true, connectOk := true,
    describeOk := true, desc := ⟨"rtsp://host:8554/p8", ["video"]⟩,
    descMarshalOk := true, setupOk := true, playOk := true,
    packets := [(⟨2, 41, 410, false, false, false, 96, 9, [], [], 0⟩, true)] }

/-- Witness for C8: a second packet with different field values is
delivered after a first one. -/
theorem packet_callback_stateless_witness :
    (2 ≤ envStateless.args.length ∧ envStateless.parseOk = true ∧
     envStateless.connectOk = true ∧ envStateless.describeOk = true) ∧
    ((run { envStateless with packets := envStateless.packets ++
        [(⟨2, 42, 420, true, true, true, 97, 10, [3], [(1, [0])], 48862⟩, true)] }).1 =
       (run envStateless).1 ++
       callbackRun (⟨2, 42, 420, true, true, true, 97, 10, [3], [(1, [0])], 48862⟩, true) ∧
     (∀ info, Event.packetBlock info ∈
         callbackRun (⟨2, 42, 420, true, true, true, 97, 10, [3], [(1, [0])], 48862⟩, true) →
       info = packetInfo ⟨2, 42, 420, true, true, true, 97, 10, [3], [(1, [0])], 48862⟩) ∧
     (∀ p : RTPPacket, callbackRun (p, true) = [Event.packetBlock (packetInfo p)])) :=
  ⟨⟨by decide, by decide, by decide, by decide⟩,
   packet_callback_stateless envStateless (by decide) (by decide) (by decide)
     (by decide) (⟨2, 42, 420, true, true, true, 97, 10, [3], [(1, [0])], 48862⟩, true)⟩

/-- C10: the two source variants agree on their shared prefix: for every
environment, the truncated variant's trace (argument check, URL parse,
Connect, Describe — fatal on error in both — and description
serialization) is an initial segment of the full program's trace, the
two make the same fatal-exit decisions, and both build the same client
configuration (5-second read/write timeouts, any-port enabled). -/
theorem variant_shared_prefix_equiv (e : Env) :
    (∃ t, (run e).1 = (run2 (restrictEnv e)).1 ++ t) ∧
    ((run e).2 = Outcome.fatalExit ↔ (run2 (restrictEnv e)).2 = Outcome.fatalExit) ∧
    mainClientConfig = variantClientConfig := by
  refine ⟨?_, ?_, rfl⟩
  · by_cases h1 : e.args.length < 2
    · exact ⟨[], by simp [run, run2, restrictEnv, h1]⟩
    · cases h2 : e.parseOk
      · exact ⟨[], by simp [run, run2, restrictEnv, h1, h2]⟩
      · cases h3 : e.connectOk
        · exact ⟨[], by simp [run, run2, restrictEnv, h1, h2, h3]⟩
        · cases h4 : e.describeOk
          · exact ⟨[], by simp [run, run2, restrictEnv, h1, h2, h3, h4]⟩
          · refine ⟨[Event.netSetup] ++
              (if e.setupOk then [] else [Event.logSetupError]) ++
              [Event.registerCallback CallbackScope.allMedias, Event.netPlay] ++
              (if e.playOk then [] else [Event.logPlayError]) ++
              [Event.logStreaming] ++ packetsEvents e.packets, ?_⟩
            cases hd : e.descMarshalOk <;> cases hs : e.setupOk <;>
              cases hp : e.playOk <;>
              simp [run, run2, restrictEnv, h1, h2, h3, h4, hd, hs, hp]
  · by_cases h1 : e.args.length < 2 <;>
      cases h2 : e.parseOk <;> cases h3 : e.connectOk <;> cases h4 : e.describeOk <;>
      simp [run, run2, restrictEnv, h1, h2, h3, h4]
